import Mathlib

/-!
Shallow embedding of the OBD-II data-logging service (`src/obd_service.py`):
the connection lifecycle manager, capability discovery, the polling loop and
the manual control endpoints, together with theorems checking the
natural-language specification against the code.
-/

namespace ObdService

/-! ## Configuration constants (obd_service.py lines 35-39) -/

def POLL_INTERVAL : ℚ := 1/2

def BUFFER_SIZE : Nat := 100

def RETRY_DELAY : ℚ := 10

def MIN_RETRY_DELAY : ℚ := 5

def MAX_RETRY_DELAY : ℚ := 30

/-! ## Retry delay (obd_service.py lines 56-65)

`connection_attempts` is a Python int, so it is modelled as `ℤ`; Python's
`2 ** e` for a negative int exponent produces the exact dyadic value
`1 / 2 ^ |e|`, which `zpow` on `ℚ` reproduces. -/

def get_retry_delay (connection_attempts : ℤ) : ℚ :=
  min (MIN_RETRY_DELAY * (2 : ℚ) ^ (min (connection_attempts - 1) 3)) MAX_RETRY_DELAY

/-! ## Connection state (obd_service.py line 53)

The Python global `connection_state` takes the string values
`"initializing", "connecting", "discovering", "connected", "disconnected",
"reconnecting"`; modelled as an enumeration. -/

inductive ConnState
  | initializing
  | connecting
  | discovering
  | connected
  | disconnected
  | reconnecting
deriving DecidableEq, Repr

/-! ## Commands and query results

A command descriptor carries the fields the code reads from a python-OBD
command object: `cmd.name`, `cmd.desc`, and an optional `cmd.pid`
(obd_service.py lines 111-116, 322-326). A query of the transport either
returns a response whose `.is_null()` is false (carrying a numeric value and
unit string), returns a null response, or raises an exception. -/

structure CommandDescriptor where
  name : String
  desc : String
  pid : Option Nat
deriving DecidableEq, Repr

inductive QueryResult
  | val (v : ℚ) (unit : String)
  | null
  | raised
deriving DecidableEq, Repr

/-- True exactly when the response is non-null, i.e. the Python test
`not response.is_null()` succeeds without an exception. -/
def QueryResult.nonNull : QueryResult → Bool
  | .val _ _ => true
  | _ => false

/-! ## Capability discovery (obd_service.py lines 67-126)

`discover_available_commands` clears the global `available_commands` list,
probes every catalog command once in order (appending each supported one to
the shared list as it goes), and finally sets `connection_state` to
`"connected"`. The fold below mirrors the loop body; the `tested` counter
and the `probed` trace record that each command is probed exactly once, in
order. -/

structure DiscoveryAcc where
  available_commands : List CommandDescriptor
  tested : Nat
  probed : List CommandDescriptor
deriving DecidableEq, Repr

/-- One iteration of the discovery loop (lines 87-102): increment `tested`,
query the command, and append it to `available_commands` iff the response is
non-null (a raised exception is caught and the command is skipped). -/
def discoveryStep (query : CommandDescriptor → QueryResult) (acc : DiscoveryAcc)
    (cmd : CommandDescriptor) : DiscoveryAcc :=
  let acc := { acc with tested := acc.tested + 1, probed := acc.probed ++ [cmd] }
  match query cmd with
  | .val _ _ => { acc with available_commands := acc.available_commands ++ [cmd] }
  | _ => acc

structure DiscoveryResult where
  available_commands : List CommandDescriptor
  tested : Nat
  probed : List CommandDescriptor
  connection_state : ConnState
deriving DecidableEq, Repr

/-- Model of `discover_available_commands`: if the transport is not connected, return
early leaving the globals unchanged (lines 74-76); otherwise set state to
`discovering`, clear the list, run the loop, and set state to `connected`
(line 126) regardless of how many commands were found. -/
def discover_available_commands (connected : Bool)
    (query : CommandDescriptor → QueryResult) (catalog : List CommandDescriptor)
    (prior : List CommandDescriptor) (priorState : ConnState) : DiscoveryResult :=
  if connected then
    let acc := catalog.foldl (discoveryStep query) ⟨[], 0, []⟩
    ⟨acc.available_commands, acc.tested, acc.probed, .connected⟩
  else
    ⟨prior, 0, [], priorState⟩

/-- The post-clear segment of a discovery pass, as observable by a
concurrent reader of the shared pair
(`available_commands`, `connection_state`): one snapshot after each probe of
the loop (lines 87-102), and the final snapshot after line 126 sets the
state to `connected`. -/
def discoverSnapshotsAux (query : CommandDescriptor → QueryResult) :
    List CommandDescriptor → List CommandDescriptor →
      List (List CommandDescriptor × ConnState)
  | avail, [] => [(avail, .connected)]
  | avail, cmd :: rest =>
      let avail' := match query cmd with
        | .val _ _ => avail ++ [cmd]
        | _ => avail
      (avail', .discovering) :: discoverSnapshotsAux query avail' rest

/-- Every value of the shared pair (`available_commands`, `connection_state`)
observable by a concurrent reader during one discovery pass, in program
order. On entry (lines 74-77) the pair still holds the previous pass's list
`prior` and the state left by `init_obd` (`priorState`, i.e. `connected`
after a successful connect); line 78 sets `discovering` while the stale list
is still published; line 84 replaces the list with `[]`; then the loop
appends one supported command per probe; line 126 finally sets
`connected`. -/
def discoverSnapshots (query : CommandDescriptor → QueryResult)
    (catalog : List CommandDescriptor) (prior : List CommandDescriptor)
    (priorState : ConnState) : List (List CommandDescriptor × ConnState) :=
  (prior, priorState) :: (prior, .discovering) :: ([], .discovering) ::
    discoverSnapshotsAux query [] catalog

/-! ## Polling loop (obd_service.py lines 192-284)

One tick of the `while is_running` loop is modelled by `pollTick`. Its input
is what the environment supplies during that iteration: whether
`obd_connection.is_connected()` holds, the timestamp string, the query
outcome for each command of `available_commands` in order, and whether the
file append at lines 253-254 succeeds (`writeOk = false` models a raised
exception there, caught by the `except` at line 267). -/

def max_consecutive_errors : Nat := 10

structure Sample where
  timestamp : String
  fields : List (String × ℚ × String)
deriving DecidableEq, Repr

/-- The `data` dict built by the loop at lines 212-234: the timestamp plus,
for each command whose query returned non-null, the `name -> (value, unit)`
entry; null responses and raised queries contribute no field. -/
def extractFields (responses : List (String × QueryResult)) :
    List (String × ℚ × String) :=
  responses.filterMap fun p =>
    match p.2 with
    | .val v u => some (p.1, v, u)
    | _ => none

/-- Value of `poll_success` after the query loop: set iff at least one response was
non-null (line 222). -/
def pollSuccess (responses : List (String × QueryResult)) : Bool :=
  responses.any fun p => p.2.nonNull

/-- The buffer `data_buffer` is a `deque(maxlen=BUFFER_SIZE)` (line 45): appending to a
full buffer evicts the oldest entries. -/
def bufferAppend (buf : List Sample) (x : Sample) : List Sample :=
  let b := buf ++ [x]
  if BUFFER_SIZE < b.length then b.drop (b.length - BUFFER_SIZE) else b

structure PollerState where
  consecutive_errors : Nat
  connection_state : ConnState
  data_buffer : List Sample
  persisted : List Sample
deriving DecidableEq, Repr

structure TickInput where
  connected : Bool
  timestamp : String
  responses : List (String × QueryResult)
  writeOk : Bool

inductive TickExit
  | next
  | lostConnection
  | tooManyErrors
deriving DecidableEq, Repr

/-- One iteration of the polling loop body (lines 205-276), entered with
`is_running` true. Returns the updated shared state and how the iteration
ended: `.next` reaches the bottom of the loop, the other two exits `break`
out of it. -/
def pollTick (s : PollerState) (inp : TickInput) : PollerState × TickExit :=
  if inp.connected = false then
    ({ s with connection_state := .disconnected }, .lostConnection)
  else
    let data : Sample := ⟨inp.timestamp, extractFields inp.responses⟩
    if pollSuccess inp.responses then
      let s := { s with consecutive_errors := 0, connection_state := .connected,
                        data_buffer := bufferAppend s.data_buffer data }
      if inp.writeOk then
        ({ s with persisted := s.persisted ++ [data] }, .next)
      else
        let s := { s with consecutive_errors := s.consecutive_errors + 1 }
        if max_consecutive_errors ≤ s.consecutive_errors then
          ({ s with connection_state := .disconnected }, .tooManyErrors)
        else (s, .next)
    else
      let s := { s with consecutive_errors := s.consecutive_errors + 1 }
      if max_consecutive_errors ≤ s.consecutive_errors then
        ({ s with connection_state := .disconnected }, .tooManyErrors)
      else (s, .next)

/-- The event stream driving one invocation of `poll_obd`: either the next
iteration finds `is_running` still true and runs a tick on the given input,
or `is_running` was cleared (by `POST /stop` or shutdown) before the
condition check at line 204, ending the loop. -/
inductive LoopEvent
  | pause
  | tick (inp : TickInput)

/-- The `while is_running` loop: returns the state when the loop stops, the
number of ticks executed, and whether the loop actually exited (`false`
means the supplied event stream ran out while the loop would keep going). -/
def pollLoopRun (s : PollerState) : List LoopEvent → PollerState × Nat × Bool
  | [] => (s, 0, false)
  | .pause :: _ => (s, 0, true)
  | .tick inp :: rest =>
      match pollTick s inp with
      | (s', .next) =>
          let r := pollLoopRun s' rest
          (r.1, r.2.1 + 1, r.2.2)
      | (s', _) => (s', 1, true)

structure PollRunResult where
  st : PollerState
  ticks : Nat
  loopExited : Bool
  reconnectionsScheduled : Nat
deriving Repr

/-- Model of `poll_obd`: run the loop; whenever the loop exits — by `break` or because
`is_running` is false — the tail at lines 278-284 runs unconditionally:
`is_running = False`, `connection_state = "reconnecting"`, and
`schedule_reconnection()` is invoked (scheduling one reconnection attempt
after the current retry delay). -/
def poll_obd (s : PollerState) (events : List LoopEvent) : PollRunResult :=
  let r := pollLoopRun s events
  if r.2.2 then
    ⟨{ r.1 with connection_state := .reconnecting }, r.2.1, true, 1⟩
  else
    ⟨r.1, r.2.1, false, 0⟩

/-! ## Connection manager (obd_service.py lines 128-166, 424-505, 538-579)

The globals the manager mutates: `connection_attempts` (a Python int, so
`ℤ`), `is_running`, and `connection_state`. -/

structure MgrState where
  connection_attempts : ℤ
  is_running : Bool
  connection_state : ConnState
deriving DecidableEq, Repr

/-- Model of `init_obd` (lines 128-166): increments `connection_attempts`, sets state
to `connecting`, attempts the transport connect (`succeeds` is the outcome of
`obd.OBD(...)` followed by `is_connected()`); on success the state becomes
`connected` and the function returns `True`, otherwise `disconnected` and
`False`. No path resets `connection_attempts`. -/
def init_obd (succeeds : Bool) (s : MgrState) : MgrState × Bool :=
  let s := { s with connection_attempts := s.connection_attempts + 1,
                    connection_state := ConnState.connecting }
  if succeeds then ({ s with connection_state := .connected }, true)
  else ({ s with connection_state := .disconnected }, false)

/-- The delay `reconnect_obd` waits before calling `init_obd`
(lines 488-490): `get_retry_delay()` evaluated on the current attempt
counter. -/
def reconnect_obd_delay (s : MgrState) : ℚ :=
  get_retry_delay s.connection_attempts

/-- One round of `reconnect_obd` (lines 467-505): wait `get_retry_delay()`,
then attempt `init_obd`. Returns the delay waited, the state after the
attempt, and whether the attempt succeeded (on failure the code schedules
another round). -/
def reconnect_obd (succeeds : Bool) (s : MgrState) : ℚ × MgrState × Bool :=
  let delay := get_retry_delay s.connection_attempts
  let r := init_obd succeeds s
  (delay, r.1, r.2)

inductive StartResponse
  | alreadyRunning
  | reconnectionInitiated
deriving DecidableEq, Repr

/-- Endpoint `POST /start` (`manual_start_logging`, lines 538-558): if `is_running`,
reply "already running" and change nothing; otherwise set
`connection_attempts = 0` and create a `reconnect_obd` task (the returned
`Bool` records that the task was spawned). -/
def manual_start_logging (s : MgrState) : MgrState × StartResponse × Bool :=
  if s.is_running then (s, .alreadyRunning, false)
  else ({ s with connection_attempts := 0 }, .reconnectionInitiated, true)

/-- Endpoint `POST /stop` (`manual_stop_logging`, lines 560-579): if not running,
reply "already stopped"; otherwise clear `is_running`. Nothing else is
touched. -/
def manual_stop_logging (s : MgrState) : MgrState :=
  if s.is_running then { s with is_running := false } else s

/-- The events that mutate the manager's globals: a call of `init_obd`
(from `initialize_obd_background`'s retry loop or from `reconnect_obd`), the
two manual endpoints, and the poll loop's exit tail (lines 279-280), which
clears `is_running` and sets state `reconnecting`. -/
inductive MgrEvent
  | initAttempt (succeeds : Bool)
  | manualStart
  | manualStop
  | pollerExit

def mgrStep (s : MgrState) : MgrEvent → MgrState
  | .initAttempt ok => (init_obd ok s).1
  | .manualStart => (manual_start_logging s).1
  | .manualStop => manual_stop_logging s
  | .pollerExit => { s with is_running := false, connection_state := .reconnecting }

/-! ## Properties of the retry delay -/

theorem get_retry_delay_le_max (n : ℤ) : get_retry_delay n ≤ MAX_RETRY_DELAY :=
  min_le_right _ _

theorem get_retry_delay_eq_max_of_four_le {n : ℤ} (h : 4 ≤ n) :
    get_retry_delay n = 30 := by
  unfold get_retry_delay
  rw [min_eq_right (by omega : (3 : ℤ) ≤ n - 1)]
  norm_num [MIN_RETRY_DELAY, MAX_RETRY_DELAY, min_def]

theorem get_retry_delay_mono {m n : ℤ} (h1 : 1 ≤ m) (h2 : m ≤ n) :
    get_retry_delay m ≤ get_retry_delay n := by
  rcases le_or_lt n 4 with h4 | h4
  · have hm4 : m ≤ 4 := le_trans h2 h4
    interval_cases m <;> interval_cases n <;>
      norm_num [get_retry_delay, MIN_RETRY_DELAY, MAX_RETRY_DELAY, min_def]
  · calc get_retry_delay m ≤ MAX_RETRY_DELAY := get_retry_delay_le_max m
      _ = get_retry_delay n := by
          rw [get_retry_delay_eq_max_of_four_le (by omega : (4 : ℤ) ≤ n)]
          norm_num [MAX_RETRY_DELAY]

/-- Claim C1: for every attempt count `n ≥ 1` the retry delay equals
`min(MIN_RETRY_DELAY * 2^(min(n-1, 3)), MAX_RETRY_DELAY)`; with the code's
constants this yields the sequence 5, 10, 20, 30, 30, ... as `n` grows from
1, and the sequence is non-decreasing and never exceeds `MAX_RETRY_DELAY`. -/
theorem claim_C1_retry_delay_backoff :
    (∀ n : ℤ, 1 ≤ n →
        get_retry_delay n =
          min (MIN_RETRY_DELAY * (2 : ℚ) ^ (min (n - 1) 3)) MAX_RETRY_DELAY) ∧
    get_retry_delay 1 = 5 ∧ get_retry_delay 2 = 10 ∧ get_retry_delay 3 = 20 ∧
    (∀ n : ℤ, 4 ≤ n → get_retry_delay n = 30) ∧
    (∀ m n : ℤ, 1 ≤ m → m ≤ n → get_retry_delay m ≤ get_retry_delay n) ∧
    (∀ n : ℤ, get_retry_delay n ≤ MAX_RETRY_DELAY) := by
  refine ⟨fun n _ => rfl, ?_, ?_, ?_, fun n h => get_retry_delay_eq_max_of_four_le h,
          fun m n h1 h2 => get_retry_delay_mono h1 h2, get_retry_delay_le_max⟩ <;>
    norm_num [get_retry_delay, MIN_RETRY_DELAY, MAX_RETRY_DELAY, min_def]

/-- Witness for claim C1 at concrete attempt counts. -/
theorem claim_C1_retry_delay_backoff_witness :
    get_retry_delay 7 = 30 ∧ get_retry_delay 2 ≤ get_retry_delay 6 :=
  ⟨claim_C1_retry_delay_backoff.2.2.2.2.1 7 (by norm_num),
   claim_C1_retry_delay_backoff.2.2.2.2.2.1 2 6 (by norm_num) (by norm_num)⟩

/-- Claim C10: with `connection_attempts = 0` (the initial value, and the
value set by `POST /start`), `get_retry_delay` evaluates
`MIN_RETRY_DELAY * 2^(min(-1, 3)) = 5 * 2^(-1) = 5/2` — strictly below the
stated minimum of 5 and strictly above 0 — and this is exactly the delay
`reconnect_obd` waits before the attempt triggered by `POST /start`. -/
theorem claim_C10_zero_attempts_delay :
    get_retry_delay 0 = MIN_RETRY_DELAY * (2 : ℚ) ^ (-1 : ℤ) ∧
    get_retry_delay 0 = 5/2 ∧
    get_retry_delay 0 < MIN_RETRY_DELAY ∧
    0 < get_retry_delay 0 ∧
    (∀ s : MgrState, s.is_running = false →
      reconnect_obd_delay (manual_start_logging s).1 = 5/2) := by
  refine ⟨?_, ?_, ?_, ?_, fun s h => ?_⟩
  · norm_num [get_retry_delay, MIN_RETRY_DELAY, MAX_RETRY_DELAY, min_def]
  · norm_num [get_retry_delay, MIN_RETRY_DELAY, MAX_RETRY_DELAY, min_def]
  · norm_num [get_retry_delay, MIN_RETRY_DELAY, MAX_RETRY_DELAY, min_def]
  · norm_num [get_retry_delay, MIN_RETRY_DELAY, MAX_RETRY_DELAY, min_def]
  · simp only [manual_start_logging, h, Bool.false_eq_true, if_false,
      reconnect_obd_delay]
    norm_num [get_retry_delay, MIN_RETRY_DELAY, MAX_RETRY_DELAY, min_def]

/-- Witness for claim C10: `POST /start` on a stopped service with 9 prior
attempts leads to a pre-attempt wait of 5/2 seconds. -/
theorem claim_C10_zero_attempts_delay_witness :
    reconnect_obd_delay (manual_start_logging ⟨9, false, .disconnected⟩).1 = 5/2 :=
  claim_C10_zero_attempts_delay.2.2.2.2 ⟨9, false, .disconnected⟩ rfl

/-- Claim C3 counterexample: `POST /start` on a stopped service with 7 prior
attempts does reset the counter to 0, but the next attempt does not proceed
with zero delay — `reconnect_obd` waits `get_retry_delay() = 5/2` seconds
before calling `init_obd`. -/
theorem claim_C3_counterexample :
    (manual_start_logging ⟨7, false, .disconnected⟩).1.connection_attempts = 0 ∧
    reconnect_obd_delay (manual_start_logging ⟨7, false, .disconnected⟩).1 = 5/2 ∧
    reconnect_obd_delay (manual_start_logging ⟨7, false, .disconnected⟩).1 ≠ 0 := by
  refine ⟨rfl, ?_, ?_⟩ <;>
    norm_num [manual_start_logging, reconnect_obd_delay, get_retry_delay,
      MIN_RETRY_DELAY, MAX_RETRY_DELAY, min_def]

/-- Claim C3 (amended): whenever `POST /start` is invoked while polling is
not running, it sets `connection_attempts` to 0 regardless of its prior
value and spawns a reconnection task; the next connection attempt proceeds
after a wait of 5/2 seconds (below the 5-second minimum backoff), not after
zero delay. -/
theorem claim_C3_manual_start_resets_attempts :
    ∀ s : MgrState, s.is_running = false →
      (manual_start_logging s).1.connection_attempts = 0 ∧
      (manual_start_logging s).2.1 = StartResponse.reconnectionInitiated ∧
      (manual_start_logging s).2.2 = true ∧
      reconnect_obd_delay (manual_start_logging s).1 = 5/2 := by
  intro s h
  refine ⟨?_, ?_, ?_, ?_⟩ <;>
    simp only [manual_start_logging, h, Bool.false_eq_true, if_false,
      reconnect_obd_delay] <;>
    norm_num [get_retry_delay, MIN_RETRY_DELAY, MAX_RETRY_DELAY, min_def]

/-- Witness for the amended claim C3 at a concrete stopped state. -/
theorem claim_C3_manual_start_resets_attempts_witness :
    (manual_start_logging ⟨42, false, .reconnecting⟩).1.connection_attempts = 0 ∧
    (manual_start_logging ⟨42, false, .reconnecting⟩).2.1 =
        StartResponse.reconnectionInitiated ∧
    (manual_start_logging ⟨42, false, .reconnecting⟩).2.2 = true ∧
    reconnect_obd_delay (manual_start_logging ⟨42, false, .reconnecting⟩).1 = 5/2 :=
  claim_C3_manual_start_resets_attempts ⟨42, false, .reconnecting⟩ rfl

/-- Claim C6: no execution path through `init_obd` or `reconnect_obd` resets
`connection_attempts` to 0 on success — every connection attempt increments
it by exactly 1, and the only event that zeroes it is the manual
`POST /start`; after a successful connection followed by a failed one, the
next backoff is computed from the accumulated count. -/
theorem claim_C6_attempts_never_reset_on_success :
    (∀ (s : MgrState) (ok : Bool),
        (init_obd ok s).1.connection_attempts = s.connection_attempts + 1) ∧
    (∀ (s : MgrState) (ok : Bool),
        (reconnect_obd ok s).2.1.connection_attempts = s.connection_attempts + 1) ∧
    (∀ s : MgrState, 0 ≤ s.connection_attempts →
        (init_obd true s).1.connection_attempts ≠ 0) ∧
    (∀ (s : MgrState) (e : MgrEvent),
        ((∃ ok, e = .initAttempt ok) ∧
            (mgrStep s e).connection_attempts = s.connection_attempts + 1) ∨
        (mgrStep s e).connection_attempts = s.connection_attempts ∨
        (e = .manualStart ∧ (mgrStep s e).connection_attempts = 0)) ∧
    (∀ s : MgrState,
        (init_obd false (init_obd true s).1).1.connection_attempts =
          s.connection_attempts + 2 ∧
        reconnect_obd_delay (init_obd false (init_obd true s).1).1 =
          get_retry_delay (s.connection_attempts + 2)) := by
  have hinit : ∀ (s : MgrState) (ok : Bool),
      (init_obd ok s).1.connection_attempts = s.connection_attempts + 1 := by
    intro s ok
    cases ok <;> simp [init_obd]
  refine ⟨hinit, ?_, ?_, ?_, ?_⟩
  · intro s ok
    simp only [reconnect_obd]
    exact hinit s ok
  · intro s h
    rw [hinit s true]
    omega
  · intro s e
    cases e with
    | initAttempt ok => exact Or.inl ⟨⟨ok, rfl⟩, hinit s ok⟩
    | manualStart =>
        by_cases h : s.is_running
        · exact Or.inr (Or.inl (by simp [mgrStep, manual_start_logging, h]))
        · exact Or.inr (Or.inr ⟨rfl, by simp [mgrStep, manual_start_logging, h]⟩)
    | manualStop =>
        by_cases h : s.is_running <;>
          exact Or.inr (Or.inl (by simp [mgrStep, manual_stop_logging, h]))
    | pollerExit => exact Or.inr (Or.inl rfl)
  · intro s
    constructor
    · rw [hinit _ false, hinit s true]
      omega
    · simp only [reconnect_obd_delay]
      rw [hinit _ false, hinit s true]
      ring_nf

/-- Witness for claim C6: a successful attempt from 3 prior attempts leaves
the counter at 4 (not 0), and a success-then-failure pair from 3 prior
attempts computes the next backoff from 5 accumulated attempts. -/
theorem claim_C6_attempts_never_reset_on_success_witness :
    (init_obd true ⟨3, false, .disconnected⟩).1.connection_attempts ≠ 0 ∧
    (init_obd false (init_obd true ⟨3, false, .disconnected⟩).1).1.connection_attempts
        = 5 :=
  ⟨claim_C6_attempts_never_reset_on_success.2.2.1 ⟨3, false, .disconnected⟩
      (by norm_num),
   (claim_C6_attempts_never_reset_on_success.2.2.2.2 ⟨3, false, .disconnected⟩).1⟩

/-! ## Concrete poller scenarios -/

/-- A tick whose single query returns a non-null value and whose file append
succeeds. -/
def tickAllGood : TickInput := ⟨true, "t", [("RPM", .val 800 "rpm")], true⟩

/-- A tick in which every query returns null or raises: a failure tick. -/
def tickAllNull : TickInput := ⟨true, "t", [("RPM", .null), ("SPEED", .raised)], true⟩

/-- The poller's state on entry: fresh error counter, connected, empty
buffers. -/
def poller0 : PollerState := ⟨0, .connected, [], []⟩

/-- Claim C2 (code bug): after `POST /stop` clears `is_running` while
polling, the in-flight tick completes and the Poller exits — but contrary to
the claim (and to `manual_stop_logging`'s own docstring, which promises that
auto-reconnection is disabled), `poll_obd`'s unconditional exit tail
(lines 278-284) still sets `connection_state` to `reconnecting` and invokes
`schedule_reconnection()`, scheduling a reconnection attempt with no
`POST /start` ever issued. -/
theorem claim_C2_stop_still_schedules_reconnection :
    (poll_obd poller0 [.tick tickAllGood, .pause]).ticks = 1 ∧
    (poll_obd poller0 [.tick tickAllGood, .pause]).loopExited = true ∧
    (poll_obd poller0 [.tick tickAllGood, .pause]).reconnectionsScheduled = 1 ∧
    (poll_obd poller0 [.tick tickAllGood, .pause]).st.connection_state =
      .reconnecting :=
  ⟨rfl, rfl, rfl, rfl⟩

/-- Claim C5: starting from a fresh poller, exactly
`max_consecutive_errors = 10` consecutive all-null ticks make the Poller
break out, signal lost-connection exactly once (ending in state
`reconnecting`, out of `connected`), and execute no further tick no matter
what events follow; after only 9 such ticks the loop is still running, no
reconnection has been scheduled, and the state is still `connected`. -/
theorem claim_C5_ten_failures_stop_poller :
    (∀ extra : List LoopEvent,
      (poll_obd poller0 (List.replicate 10 (.tick tickAllNull) ++ extra)).ticks
          = 10 ∧
      (poll_obd poller0
          (List.replicate 10 (.tick tickAllNull) ++ extra)).reconnectionsScheduled
          = 1 ∧
      (poll_obd poller0
          (List.replicate 10 (.tick tickAllNull) ++ extra)).st.connection_state
          = .reconnecting) ∧
    (poll_obd poller0 (List.replicate 9 (.tick tickAllNull))).loopExited = false ∧
    (poll_obd poller0
        (List.replicate 9 (.tick tickAllNull))).reconnectionsScheduled = 0 ∧
    (poll_obd poller0
        (List.replicate 9 (.tick tickAllNull))).st.consecutive_errors = 9 ∧
    (poll_obd poller0 (List.replicate 9 (.tick tickAllNull))).st.connection_state
        = .connected :=
  ⟨fun _ => ⟨rfl, rfl, rfl⟩, rfl, rfl, rfl, rfl⟩

/-- Claim C4: on a tick with the transport connected and the file append
succeeding, an all-null query round increments the consecutive-failure
counter by exactly 1 and appends nothing, while a round with at least one
non-null result resets the counter to exactly 0 and appends exactly one
sample to both the buffer and the log; the sample's fields are exactly the
non-null (value, unit) results, keyed by command name, plus the
timestamp. -/
theorem claim_C4_tick_counter_and_sample (s : PollerState) (ts : String)
    (responses : List (String × QueryResult)) :
    (pollSuccess responses = false →
      (pollTick s ⟨true, ts, responses, true⟩).1.consecutive_errors =
          s.consecutive_errors + 1 ∧
      (pollTick s ⟨true, ts, responses, true⟩).1.data_buffer = s.data_buffer ∧
      (pollTick s ⟨true, ts, responses, true⟩).1.persisted = s.persisted) ∧
    (pollSuccess responses = true →
      (pollTick s ⟨true, ts, responses, true⟩).1.consecutive_errors = 0 ∧
      (pollTick s ⟨true, ts, responses, true⟩).1.data_buffer =
          bufferAppend s.data_buffer ⟨ts, extractFields responses⟩ ∧
      (pollTick s ⟨true, ts, responses, true⟩).1.persisted =
          s.persisted ++ [⟨ts, extractFields responses⟩]) ∧
    (∀ nm v u, (nm, v, u) ∈ extractFields responses ↔
        (nm, QueryResult.val v u) ∈ responses) := by
  refine ⟨?_, ?_, ?_⟩
  · intro h
    by_cases h10 : max_consecutive_errors ≤ s.consecutive_errors + 1 <;>
      simp [pollTick, h, h10]
  · intro h
    simp [pollTick, h]
  · intro nm v u
    simp only [extractFields, List.mem_filterMap]
    constructor
    · rintro ⟨⟨nm', r⟩, hmem, heq⟩
      cases r with
      | val v' u' =>
          simp only [Option.some.injEq, Prod.mk.injEq] at heq
          obtain ⟨h1, h2, h3⟩ := heq
          subst h1
          subst h2
          subst h3
          exact hmem
      | null => simp at heq
      | raised => simp at heq
    · intro hmem
      exact ⟨(nm, .val v u), hmem, rfl⟩

/-- Witness for claim C4: a tick with one non-null result resets the counter
from 4 to 0; an all-null tick raises it from 4 to 5. -/
theorem claim_C4_tick_counter_and_sample_witness :
    (pollTick ⟨4, .connected, [], []⟩
        ⟨true, "t3", [("RPM", .val 800 "rpm"), ("SPEED", .null)],
          true⟩).1.consecutive_errors = 0 ∧
    (pollTick ⟨4, .connected, [], []⟩
        ⟨true, "t3", [("RPM", .null)], true⟩).1.consecutive_errors = 4 + 1 :=
  ⟨((claim_C4_tick_counter_and_sample ⟨4, .connected, [], []⟩ "t3"
        [("RPM", .val 800 "rpm"), ("SPEED", .null)]).2.1 rfl).1,
   ((claim_C4_tick_counter_and_sample ⟨4, .connected, [], []⟩ "t3"
        [("RPM", .null)]).1 rfl).1⟩

/-- Claim C9: on a tick whose queries succeeded (at least one non-null
result), a raised error during the file append is caught by the loop's
`except` handler: the tick ends with `.next` (polling continues), the
connection state stays `connected`, nothing is persisted, the sample still
reaches the in-memory buffer, and the failure counter stays strictly below
the reconnect threshold. -/
theorem claim_C9_write_failure_keeps_polling (s : PollerState) (ts : String)
    (responses : List (String × QueryResult))
    (hsucc : pollSuccess responses = true) :
    (pollTick s ⟨true, ts, responses, false⟩).2 = TickExit.next ∧
    (pollTick s ⟨true, ts, responses, false⟩).1.connection_state = .connected ∧
    (pollTick s ⟨true, ts, responses, false⟩).1.persisted = s.persisted ∧
    (pollTick s ⟨true, ts, responses, false⟩).1.data_buffer =
        bufferAppend s.data_buffer ⟨ts, extractFields responses⟩ ∧
    (pollTick s ⟨true, ts, responses, false⟩).1.consecutive_errors <
        max_consecutive_errors := by
  simp [pollTick, hsucc, max_consecutive_errors]

/-- Witness for claim C9: a concrete successful tick with a failing file
append keeps the loop going and persists nothing. -/
theorem claim_C9_write_failure_keeps_polling_witness :
    (pollTick ⟨7, .connected, [], []⟩
        ⟨true, "t4", [("RPM", .val 900 "rpm")], false⟩).2 = TickExit.next ∧
    (pollTick ⟨7, .connected, [], []⟩
        ⟨true, "t4", [("RPM", .val 900 "rpm")], false⟩).1.persisted = [] :=
  ⟨(claim_C9_write_failure_keeps_polling ⟨7, .connected, [], []⟩ "t4"
      [("RPM", .val 900 "rpm")] rfl).1,
   (claim_C9_write_failure_keeps_polling ⟨7, .connected, [], []⟩ "t4"
      [("RPM", .val 900 "rpm")] rfl).2.2.1⟩

/-! ## Properties of capability discovery -/

theorem discovery_foldl_avail (query : CommandDescriptor → QueryResult) :
    ∀ (catalog : List CommandDescriptor) (acc : DiscoveryAcc),
      (catalog.foldl (discoveryStep query) acc).available_commands =
        acc.available_commands ++ catalog.filter fun c => (query c).nonNull
  | [], acc => by simp
  | c :: rest, acc => by
      rw [List.foldl_cons, List.filter_cons]
      cases hq : query c <;>
        simp [discoveryStep, hq, discovery_foldl_avail query rest,
          QueryResult.nonNull]

theorem discovery_foldl_probed (query : CommandDescriptor → QueryResult) :
    ∀ (catalog : List CommandDescriptor) (acc : DiscoveryAcc),
      (catalog.foldl (discoveryStep query) acc).probed = acc.probed ++ catalog
  | [], acc => by simp
  | c :: rest, acc => by
      rw [List.foldl_cons]
      cases hq : query c <;>
        simp [discoveryStep, hq, discovery_foldl_probed query rest]

theorem discovery_foldl_tested (query : CommandDescriptor → QueryResult) :
    ∀ (catalog : List CommandDescriptor) (acc : DiscoveryAcc),
      (catalog.foldl (discoveryStep query) acc).tested =
        acc.tested + catalog.length
  | [], acc => by simp
  | c :: rest, acc => by
      rw [List.foldl_cons]
      cases hq : query c <;>
        simp [discoveryStep, hq, discovery_foldl_tested query rest] <;> omega

/-- Claim C8: with a connected transport, discovery probes every catalog
command exactly once and in catalog order, classifies a command as supported
exactly when its probe returns a non-null value, and always finishes with
`connection_state = connected` — even when zero commands of a non-empty
catalog are supported. -/
theorem claim_C8_discovery_probes_and_connects
    (query : CommandDescriptor → QueryResult)
    (catalog prior : List CommandDescriptor) (priorState : ConnState) :
    (discover_available_commands true query catalog prior
        priorState).connection_state = .connected ∧
    (discover_available_commands true query catalog prior priorState).probed =
        catalog ∧
    (discover_available_commands true query catalog prior
        priorState).available_commands =
        (catalog.filter fun c => (query c).nonNull) ∧
    (discover_available_commands true query catalog prior priorState).tested =
        catalog.length := by
  refine ⟨rfl, ?_, ?_, ?_⟩
  · simp [discover_available_commands, discovery_foldl_probed query catalog]
  · simp [discover_available_commands, discovery_foldl_avail query catalog]
  · simp [discover_available_commands, discovery_foldl_tested query catalog]

theorem discoverSnapshotsAux_spec (query : CommandDescriptor → QueryResult) :
    ∀ (rest avail : List CommandDescriptor),
      ∀ p ∈ discoverSnapshotsAux query avail rest,
        (∃ t, avail ++ (rest.filter fun c => (query c).nonNull) = p.1 ++ t) ∧
        (p.2 = ConnState.connected →
          p.1 = avail ++ rest.filter fun c => (query c).nonNull)
  | [], avail => by
      intro p hp
      simp only [discoverSnapshotsAux, List.mem_singleton] at hp
      subst hp
      exact ⟨⟨[], by simp⟩, fun _ => by simp⟩
  | cmd :: rest, avail => by
      intro p hp
      cases hq : query cmd with
      | val v u =>
          have hcond : (query cmd).nonNull = true := by
            rw [hq]
            rfl
          have hfil : List.filter (fun c => (query c).nonNull) (cmd :: rest) =
              cmd :: List.filter (fun c => (query c).nonNull) rest := by
            rw [List.filter_cons]
            simp [hcond]
          simp only [discoverSnapshotsAux, hq, List.mem_cons] at hp
          rw [hfil]
          rcases hp with hp | hp
          · subst hp
            refine ⟨⟨rest.filter fun c => (query c).nonNull, by simp⟩, ?_⟩
            intro h
            exact ConnState.noConfusion h
          · have ih := discoverSnapshotsAux_spec query rest (avail ++ [cmd]) p hp
            refine ⟨?_, ?_⟩
            · obtain ⟨t, ht⟩ := ih.1
              exact ⟨t, by simpa using ht⟩
            · intro h
              have := ih.2 h
              simpa using this
      | null =>
          have hcond : (query cmd).nonNull = false := by
            rw [hq]
            rfl
          have hfil : List.filter (fun c => (query c).nonNull) (cmd :: rest) =
              List.filter (fun c => (query c).nonNull) rest := by
            rw [List.filter_cons]
            simp [hcond]
          simp only [discoverSnapshotsAux, hq, List.mem_cons] at hp
          rw [hfil]
          rcases hp with hp | hp
          · subst hp
            refine ⟨⟨rest.filter fun c => (query c).nonNull, rfl⟩, ?_⟩
            intro h
            exact ConnState.noConfusion h
          · exact discoverSnapshotsAux_spec query rest avail p hp
      | raised =>
          have hcond : (query cmd).nonNull = false := by
            rw [hq]
            rfl
          have hfil : List.filter (fun c => (query c).nonNull) (cmd :: rest) =
              List.filter (fun c => (query c).nonNull) rest := by
            rw [List.filter_cons]
            simp [hcond]
          simp only [discoverSnapshotsAux, hq, List.mem_cons] at hp
          rw [hfil]
          rcases hp with hp | hp
          · subst hp
            refine ⟨⟨rest.filter fun c => (query c).nonNull, rfl⟩, ?_⟩
            intro h
            exact ConnState.noConfusion h
          · exact discoverSnapshotsAux_spec query rest avail p hp

/-! ## Concrete discovery scenario -/

def cmdA : CommandDescriptor := ⟨"RPM", "Engine RPM", some 12⟩

def cmdB : CommandDescriptor := ⟨"FUEL_LEVEL", "Fuel Level Input", some 47⟩

def cmdC : CommandDescriptor := ⟨"SPEED", "Vehicle Speed", some 13⟩

/-- A transport for which RPM and SPEED answer on every probe and
FUEL_LEVEL is always null. -/
def queryAC : CommandDescriptor → QueryResult := fun c =>
  if c.name = "RPM" then .val 800 "rpm"
  else if c.name = "SPEED" then .val 42 "kph"
  else .null

/-- Claim C7 counterexample: take a re-discovery pass over the catalog
[RPM, FUEL_LEVEL, SPEED] whose previous pass had published `[FUEL_LEVEL]`.
A reader of the shared pair can observe: the stale non-empty list
`[FUEL_LEVEL]` while the state is `connected` (before line 78) and again
while it is `discovering` (between lines 78 and 84) — neither equal to the
pass's final list `[RPM, SPEED]` — and the partially built list `[RPM]`
while the state is `discovering`. So the set is non-empty outside the
Connected state, a partially built list is observable, and publication is
not a single atomic whole-list replacement. -/
theorem claim_C7_counterexample :
    ([cmdB], ConnState.connected) ∈
        discoverSnapshots queryAC [cmdA, cmdB, cmdC] [cmdB] ConnState.connected ∧
    ([cmdB], ConnState.discovering) ∈
        discoverSnapshots queryAC [cmdA, cmdB, cmdC] [cmdB] ConnState.connected ∧
    ([cmdA], ConnState.discovering) ∈
        discoverSnapshots queryAC [cmdA, cmdB, cmdC] [cmdB] ConnState.connected ∧
    (discover_available_commands true queryAC [cmdA, cmdB, cmdC] [cmdB]
        ConnState.connected).available_commands = [cmdA, cmdC] ∧
    ([cmdA] : List CommandDescriptor) ≠ [] ∧
    ([cmdB] : List CommandDescriptor) ≠ [] ∧
    ([cmdA] : List CommandDescriptor) ≠ [cmdA, cmdC] ∧
    ([cmdB] : List CommandDescriptor) ≠ [cmdA, cmdC] ∧
    ConnState.discovering ≠ ConnState.connected :=
  ⟨by decide, by decide, by decide, rfl, by decide, by decide, by decide,
   by decide, by decide⟩

theorem discoverSnapshotsAux_final_mem (query : CommandDescriptor → QueryResult) :
    ∀ (rest avail : List CommandDescriptor),
      ((avail ++ rest.filter fun c => (query c).nonNull), ConnState.connected) ∈
        discoverSnapshotsAux query avail rest
  | [], avail => by simp [discoverSnapshotsAux]
  | cmd :: rest, avail => by
      cases hq : query cmd with
      | val v u =>
          have hcond : (query cmd).nonNull = true := by
            rw [hq]
            rfl
          have hfil : List.filter (fun c => (query c).nonNull) (cmd :: rest) =
              cmd :: List.filter (fun c => (query c).nonNull) rest := by
            rw [List.filter_cons]
            simp [hcond]
          rw [hfil]
          simp only [discoverSnapshotsAux, hq]
          refine List.mem_cons_of_mem _ ?_
          have ih := discoverSnapshotsAux_final_mem query rest (avail ++ [cmd])
          rw [List.append_assoc] at ih
          simpa using ih
      | null =>
          have hcond : (query cmd).nonNull = false := by
            rw [hq]
            rfl
          have hfil : List.filter (fun c => (query c).nonNull) (cmd :: rest) =
              List.filter (fun c => (query c).nonNull) rest := by
            rw [List.filter_cons]
            simp [hcond]
          rw [hfil]
          simp only [discoverSnapshotsAux, hq]
          exact List.mem_cons_of_mem _
            (discoverSnapshotsAux_final_mem query rest avail)
      | raised =>
          have hcond : (query cmd).nonNull = false := by
            rw [hq]
            rfl
          have hfil : List.filter (fun c => (query c).nonNull) (cmd :: rest) =
              List.filter (fun c => (query c).nonNull) rest := by
            rw [List.filter_cons]
            simp [hcond]
          rw [hfil]
          simp only [discoverSnapshotsAux, hq]
          exact List.mem_cons_of_mem _
            (discoverSnapshotsAux_final_mem query rest avail)

/-- Claim C7 (amended): the SupportedCommandSet is not published as a single
atomic whole-list replacement. During a discovery pass a reader of the
shared pair observes, in program order: the previous pass's list while the
state is still `connected` (lines 74-77), the same stale list while the
state is `discovering` (lines 78-83), the cleared list `[]`, and then — once
the list has been cleared at line 84 — only initial segments of the pass's
final discovered list, growing by one append per supported command while the
state is `discovering`; among these post-clear snapshots the state is
`connected` exactly at the published complete list, which does appear at the
end of the pass. -/
theorem claim_C7_discovery_not_atomic (query : CommandDescriptor → QueryResult)
    (catalog prior : List CommandDescriptor) (priorState : ConnState) :
    (discoverSnapshots query catalog prior priorState =
        (prior, priorState) :: (prior, ConnState.discovering) ::
          ([], ConnState.discovering) :: discoverSnapshotsAux query [] catalog) ∧
    (∀ p ∈ discoverSnapshotsAux query [] catalog,
        (∃ t, (catalog.filter fun c => (query c).nonNull) = p.1 ++ t) ∧
        (p.2 = ConnState.connected →
          p.1 = catalog.filter fun c => (query c).nonNull)) ∧
    ((catalog.filter fun c => (query c).nonNull), ConnState.connected) ∈
        discoverSnapshotsAux query [] catalog := by
  refine ⟨rfl, ?_, ?_⟩
  · intro p hp
    have := discoverSnapshotsAux_spec query catalog [] p hp
    simpa using this
  · have := discoverSnapshotsAux_final_mem query catalog []
    simpa using this

/-- Witness for the amended claim C7: in the concrete re-discovery scenario
the post-clear snapshot carrying state `connected` holds exactly the final
list [RPM, SPEED]. -/
theorem claim_C7_discovery_not_atomic_witness :
    ([cmdA, cmdC] : List CommandDescriptor) =
      List.filter (fun c => (queryAC c).nonNull) [cmdA, cmdB, cmdC] :=
  ((claim_C7_discovery_not_atomic queryAC [cmdA, cmdB, cmdC] [cmdB]
      ConnState.connected).2.1 ([cmdA, cmdC], ConnState.connected)
      (by decide)).2 rfl

end ObdService
